import Mathlib

/-!
Verification of the mai-video-plugin orchestration layer.

This file shallowly embeds the parts of the plugin that the claims are
about:

* src/core/api_clients.py — ApiClient.generate_video dispatch, the
  _make_openai_request submit section, and the four _poll_*_task loops;
* src/core/video_command.py — VideoGenerationCommand._rate_limited,
  the execute rate-limit gate, the _execute_inner call to generate_video,
  and the static get_video_size helper;
* src/core/video_send_cilent.py — VideoSendCilent._analyze_napcat_response
  and the retry loop of _send_private_video.

Python/JSON values are modelled by the inductive type JVal.  Python
exceptions are modelled with Except String; the string renders the
exception.  Renderings of exception texts and of composite values are
abbreviated (for example a KeyError for key k is rendered as
"KeyError(k)" instead of Python's quoted form) — no claim depends on the
exact text of an exception message, only on which branch produced it.
Network interaction is modelled by oracles: functions from a call index
to the response the remote side would give, so that theorems can
quantify over every possible provider behaviour.
-/

namespace MaiVideo

/-- Model of a Python/JSON value as stored in response bodies and in a
model-config dict. -/
inductive JVal where
  | null
  | bool (b : Bool)
  | num (n : Int)
  | str (s : String)
  | arr (xs : List JVal)
  | obj (fields : List (String × JVal))

/-- Association-list lookup used to model Python dict access: first
binding for the key wins. -/
def alook (k : String) : List (String × JVal) → Option JVal
  | [] => none
  | (k', v) :: rest => if k' = k then some v else alook k rest

/-- Association-list update used to model a Python dict item assignment:
overwrite the first binding for the key, or append a new binding. -/
def aset (k : String) (v : JVal) : List (String × JVal) → List (String × JVal)
  | [] => [(k, v)]
  | (k', v') :: rest => if k' = k then (k, v) :: rest else (k', v') :: aset k v rest

/-- Python equality test of a value against a string literal, as in
data["status"] == "completed": true only when the value is that exact
string. -/
def jIsStr (v : JVal) (target : String) : Bool :=
  match v with
  | .str t => decide (t = target)
  | _ => false

/-- Python equality test of a value against an int literal, as in
retcode in (100, 120, 121) membership checks. -/
def jIsNum (v : JVal) (target : Int) : Bool :=
  match v with
  | .num t => decide (t = target)
  | _ => false

/-- Python truthiness of a value, as in "if task_id:". -/
def jTruthy : JVal → Bool
  | .null => false
  | .bool b => b
  | .num n => decide (n ≠ 0)
  | .str s => decide (s ≠ "")
  | .arr xs => !xs.isEmpty
  | .obj fs => !fs.isEmpty

/-- Rendering of a value by Python's str(), as interpolated into
f-strings.  Composite values are rendered abbreviated; no claim depends
on their exact text. -/
def pyStr : JVal → String
  | .null => "None"
  | .bool true => "True"
  | .bool false => "False"
  | .num n => toString n
  | .str s => s
  | .arr _ => "(list)"
  | .obj _ => "(dict)"

/-- Rendering of the KeyError raised by a missing dict key. -/
def keyErrorMsg (k : String) : String := "KeyError(" ++ k ++ ")"

/-- Python subscript data[k] on a value: returns the stored value, or
raises KeyError when the key is missing, or TypeError when the value is
not a dict. -/
def jItem (v : JVal) (k : String) : Except String JVal :=
  match v with
  | .obj fs =>
    match alook k fs with
    | some x => Except.ok x
    | none => Except.error (keyErrorMsg k)
  | _ => Except.error "TypeError(not subscriptable)"

/-- Python data.get(k) on a value (default None): total on dicts, raises
AttributeError on anything else. -/
def jGetAttr (v : JVal) (k : String) : Except String JVal :=
  match v with
  | .obj fs => Except.ok ((alook k fs).getD JVal.null)
  | _ => Except.error "AttributeError(get)"

/-- Python list subscript xs[i]: IndexError past the end, TypeError on a
non-list. -/
def jIndex (v : JVal) (i : Nat) : Except String JVal :=
  match v with
  | .arr xs =>
    match xs.get? i with
    | some x => Except.ok x
    | none => Except.error "IndexError(list index out of range)"
  | _ => Except.error "TypeError(not indexable)"

/-- Python string slicing s[:n], by characters. -/
def strTake (s : String) (n : Nat) : String := String.mk (s.data.take n)

/-- Python str.lower(), character by character. -/
def lowerStr (s : String) : String := String.mk (s.data.map Char.toLower)

/-- Python substring membership, sub in s, on character lists. -/
def subSeqAt (sub : List Char) : List Char → Bool
  | [] => sub.isEmpty
  | c :: cs => sub.isPrefixOf (c :: cs) || subSeqAt sub cs

/-- Python substring membership on strings: strIn sub s models
sub in s. -/
def strIn (sub s : String) : Bool := subSeqAt sub.data s.data

/-- Normalized outcome of one poll-loop iteration: did the loop stop
with a success, stop with a failure, or keep polling. -/
inductive NormStatus where
  | succeeded
  | failed
  | pending
deriving DecidableEq

/-- Classification of a poll-iteration result (none = the loop sleeps
and polls again). -/
def stepKind : Option (Bool × JVal) → NormStatus
  | some (true, _) => NormStatus.succeeded
  | some (false, _) => NormStatus.failed
  | none => NormStatus.pending

/-- One iteration of ApiClient._poll_openai_task
(src/core/api_clients.py lines 489-500) on an already-decoded response
body: data["status"] == "completed" returns the raw data["video_url"];
data["status"] == "failed" returns a failure carrying data["error"];
any other status keeps polling (result none).  Any exception raised by
a subscript is caught by the surrounding handler, which returns the
"请求失败: " failure. -/
def pollOpenaiStep (data : JVal) : Option (Bool × JVal) :=
  match jItem data "status" with
  | .error e => some (false, JVal.str ("请求失败: " ++ e))
  | .ok st =>
    if jIsStr st "completed" then
      match jItem data "video_url" with
      | .error e => some (false, JVal.str ("请求失败: " ++ e))
      | .ok u => some (true, u)
    else if jIsStr st "failed" then
      match jItem data "error" with
      | .error e => some (false, JVal.str ("请求失败: " ++ e))
      | .ok v => some (false, JVal.str ("视频生成失败：" ++ pyStr v))
    else none

/-- One iteration of ApiClient._poll_vectorengine_task
(src/core/api_clients.py lines 610-621); its branch structure is the
same as the openai poll. -/
def pollVectorengineStep (data : JVal) : Option (Bool × JVal) :=
  match jItem data "status" with
  | .error e => some (false, JVal.str ("请求失败: " ++ e))
  | .ok st =>
    if jIsStr st "completed" then
      match jItem data "video_url" with
      | .error e => some (false, JVal.str ("请求失败: " ++ e))
      | .ok u => some (true, u)
    else if jIsStr st "failed" then
      match jItem data "error" with
      | .error e => some (false, JVal.str ("请求失败: " ++ e))
      | .ok v => some (false, JVal.str ("视频生成失败：" ++ pyStr v))
    else none

/-- One iteration of ApiClient._poll_doubao_task
(src/core/api_clients.py lines 570-585): "succeeded" returns
data["content"]["video_url"]; "failed" and "expired" stop with a
failure carrying data["error"]; anything else keeps polling. -/
def pollDoubaoStep (data : JVal) : Option (Bool × JVal) :=
  match jItem data "status" with
  | .error e => some (false, JVal.str ("请求失败: " ++ e))
  | .ok st =>
    if jIsStr st "succeeded" then
      match jItem data "content" with
      | .error e => some (false, JVal.str ("请求失败: " ++ e))
      | .ok c =>
        match jItem c "video_url" with
        | .error e => some (false, JVal.str ("请求失败: " ++ e))
        | .ok u => some (true, u)
    else if jIsStr st "failed" then
      match jItem data "error" with
      | .error e => some (false, JVal.str ("请求失败: " ++ e))
      | .ok v => some (false, JVal.str ("视频生成失败：" ++ pyStr v))
    else if jIsStr st "expired" then
      match jItem data "error" with
      | .error e => some (false, JVal.str ("请求失败: " ++ e))
      | .ok v => some (false, JVal.str ("视频生成超时：" ++ pyStr v))
    else none

/-- One iteration of ApiClient._poll_siliconflow_task
(src/core/api_clients.py lines 531-542): data.get("status") ==
"Succeed" extracts data["results"]["videos"][0]["url"] and substitutes
a placeholder for a falsy url; otherwise Python evaluates
data.get("status") in ("Failed"), which is a SUBSTRING test against the
string "Failed" (and a TypeError for a non-string status); a match
reaches self.logger.error, which raises AttributeError because
ApiClient has no logger attribute, so the handler converts it into a
"请求失败: " failure; any other string status keeps polling. -/
def pollSiliconflowStep (data : JVal) : Option (Bool × JVal) :=
  match jGetAttr data "status" with
  | .error e => some (false, JVal.str ("请求失败: " ++ e))
  | .ok st =>
    if jIsStr st "Succeed" then
      match jItem data "results" with
      | .error e => some (false, JVal.str ("请求失败: " ++ e))
      | .ok r =>
        match jItem r "videos" with
        | .error e => some (false, JVal.str ("请求失败: " ++ e))
        | .ok vs =>
          match jIndex vs 0 with
          | .error e => some (false, JVal.str ("请求失败: " ++ e))
          | .ok v0 =>
            match jItem v0 "url" with
            | .error e => some (false, JVal.str ("请求失败: " ++ e))
            | .ok u =>
              some (true, if jTruthy u then u else JVal.str "视频地址未返回")
    else
      match st with
      | .str s =>
        if strIn s "Failed" then
          some (false, JVal.str "请求失败: AttributeError(ApiClient object has no attribute logger)")
        else none
      | _ => some (false, JVal.str "请求失败: TypeError(in requires string as left operand)")

/-- The poll loop of ApiClient._poll_openai_task (src/core/api_clients.py
lines 487-503): while True, fetch and decode the poll response (the
oracle; an error models any exception raised by the request or by
json decoding, which the handler turns into a failure), run one
iteration, sleep, repeat.  The loop in the source has no fuel: the fuel
argument here counts iterations, and a result of none means the loop is
STILL RUNNING after that many iterations. -/
def pollOpenaiLoopFuel (oracle : Nat → Except String JVal) : Nat → Nat → Option (Bool × JVal)
  | 0, _ => none
  | fuel + 1, i =>
    match oracle i with
    | .error e => some (false, JVal.str ("请求失败: " ++ e))
    | .ok data =>
      match pollOpenaiStep data with
      | some r => some r
      | none => pollOpenaiLoopFuel oracle fuel (i + 1)

/-- The poll response a provider gives when the task is perpetually in
progress. -/
def alwaysPendingOracle : Nat → Except String JVal :=
  fun _ => Except.ok (JVal.obj [("status", JVal.str "processing")])

/-- What the remote side does on one submit POST of
_make_openai_request: an HTTP response (status, text body, decoded JSON
or a decode error), a requests.RequestException (connection error or
timeout), or any other exception. -/
inductive SubmitOutcome where
  | httpResp (status : Nat) (text : String) (body : Except String JVal)
  | reqExc (e : String)
  | otherExc (e : String)

/-- Outcome of the submit section of _make_openai_request: either a
final (success-flag, result) pair or a transition to the poll loop with
the extracted task id. -/
inductive SubmitStep where
  | finished (r : Bool × JVal)
  | poll (taskId : JVal)

/-- The submit section of ApiClient._make_openai_request
(src/core/api_clients.py lines 143-164): ONE requests.post; a
RequestException is converted to 网络请求失败, any other exception to
请求失败; a non-200 status fails immediately with the first 100
characters of the body text; a JSON decode error fails immediately;
a truthy response_json.get("id") enters the poll loop; a falsy one
fails with API错误. -/
def makeOpenaiSubmitStep (o : SubmitOutcome) : SubmitStep :=
  match o with
  | .reqExc e => SubmitStep.finished (false, JVal.str ("网络请求失败: " ++ e))
  | .otherExc e => SubmitStep.finished (false, JVal.str ("请求失败: " ++ e))
  | .httpResp status text body =>
    if status ≠ 200 then
      SubmitStep.finished (false, JVal.str ("API请求失败: " ++ strTake text 100))
    else
      match body with
      | .error e => SubmitStep.finished (false, JVal.str ("响应解析失败: " ++ e))
      | .ok data =>
        match jGetAttr data "id" with
        | .error e => SubmitStep.finished (false, JVal.str ("请求失败: " ++ e))
        | .ok tid =>
          if jTruthy tid then SubmitStep.poll tid
          else SubmitStep.finished (false, JVal.str ("API错误: <Response 200>"))

/-- A full run of _make_openai_request against a provider that would
answer the i-th submit POST with submits i: the source performs exactly
one POST (index 0), so later entries of the transcript are never
consulted.  Returns the result (none = the poll loop is still running
after the given fuel) and the number of submit POSTs performed. -/
def makeOpenaiRequestRun (submits : Nat → SubmitOutcome)
    (poll : Nat → Except String JVal) (fuel : Nat) : Option (Bool × JVal) × Nat :=
  match makeOpenaiSubmitStep (submits 0) with
  | SubmitStep.finished r => (some r, 1)
  | SubmitStep.poll _ => (pollOpenaiLoopFuel poll fuel 0, 1)

/-- The provider transcript of the C3 scenario: HTTP 503 on the first
two submit calls, then HTTP 200 carrying a task id. -/
def submits503twice : Nat → SubmitOutcome :=
  fun i =>
    if i < 2 then SubmitOutcome.httpResp 503 "Service Unavailable" (Except.error "JSONDecodeError")
    else SubmitOutcome.httpResp 200 "ok" (Except.ok (JVal.obj [("id", JVal.str "job-1")]))

/-- What a _make_<format>_request call does when generate_video invokes
it: return a (success, result) pair, or raise. -/
inductive ReqOutcome where
  | returns (r : Bool × JVal)
  | raises (e : String)

/-- Python rendering of the exception raised at "if success:" when the
format matched no branch and the local variable was never assigned. -/
def unboundLocalMsg : String :=
  "UnboundLocalError(local variable success referenced before assignment)"

/-- The try-block body of ApiClient.generate_video
(src/core/api_clients.py lines 44-79): dispatch on the format tag to
one of the four _make_*_request calls (the oracle gives each call's
behaviour); a format tag outside the four leaves the local variables
success, result unassigned, so the subsequent "if success:" raises;
otherwise the pair is returned as-is. -/
def generateVideoBody (fmt : JVal) (oracle : String → ReqOutcome) : Except String (Bool × JVal) :=
  let branch : Option ReqOutcome :=
    if jIsStr fmt "openai" then some (oracle "openai")
    else if jIsStr fmt "siliconflow" then some (oracle "siliconflow")
    else if jIsStr fmt "doubao" then some (oracle "doubao")
    else if jIsStr fmt "vectorengine" then some (oracle "vectorengine")
    else none
  match branch with
  | none => Except.error unboundLocalMsg
  | some (ReqOutcome.raises e) => Except.error e
  | some (ReqOutcome.returns (success, result)) =>
    if success then Except.ok (true, result) else Except.ok (false, result)

/-- ApiClient.generate_video with its outer try/except
(src/core/api_clients.py lines 40-83): an Except.error result would
model an exception escaping to the caller; the handler catches every
exception of the body and converts it to (False, "API调用异常: " plus
the first 100 characters of the exception text). -/
def generateVideoTop (fmt : JVal) (oracle : String → ReqOutcome) : Except String (Bool × JVal) :=
  match generateVideoBody fmt oracle with
  | .ok r => Except.ok r
  | .error e => Except.ok (false, JVal.str ("API调用异常: " ++ strTake e 100))

/-- The parameters declared by ApiClient.generate_video
(src/core/api_clients.py lines 40-41). -/
def generateVideoParamNames : List String :=
  ["self", "prompt", "model_config", "input_image"]

/-- The keyword arguments VideoGenerationCommand._execute_inner passes
to generate_video (src/core/video_command.py lines 157-162). -/
def executeInnerCallKwargNames : List String :=
  ["prompt", "model_config", "input_image", "model_id"]

/-- Python keyword binding for a function without a **kwargs parameter:
the call binds only when every keyword names a declared parameter,
otherwise it raises TypeError before the callee body runs. -/
def pyKwargsBindOk (params kwargs : List String) : Bool :=
  kwargs.all (fun k => params.contains k)

/-- The generate_video call as issued by _execute_inner: keyword
binding happens first; only if it succeeds would the callee body (the
body argument, covering any prompt, model configuration and input
image) run. -/
def executeInnerApiCall (body : Except String (Bool × JVal)) : Except String (Bool × JVal) :=
  if pyKwargsBindOk generateVideoParamNames executeInnerCallKwargNames then body
  else Except.error "TypeError(generate_video got an unexpected keyword argument model_id)"

/-- The try/except region of VideoGenerationCommand._execute_inner
(src/core/video_command.py lines 155-230): the generate_video call,
then the send/fallback logic (abstracted as the onResult continuation,
which may itself raise and which reports the messages it sent); any
exception is caught by the handler at line 227, which sends the generic
error message and returns (False, "execute_error", True). -/
def executeInnerTrySection (body : Except String (Bool × JVal))
    (onResult : Bool × JVal → Except String (List String × (Bool × Option String × Bool))) :
    List String × (Bool × Option String × Bool) :=
  match (executeInnerApiCall body).bind onResult with
  | .ok out => out
  | .error _ => (["发生异常，请稍后重试。"], (false, some "execute_error", true))

/-- The eviction loop of VideoGenerationCommand._rate_limited
(src/core/video_command.py lines 65-66): while the queue is nonempty
and its front timestamp is strictly older than the window, pop it. -/
def evictOld (window now : Int) : List Int → List Int
  | [] => []
  | t :: ts => if window < now - t then evictOld window now ts else t :: ts

/-- VideoGenerationCommand._rate_limited (src/core/video_command.py
lines 60-70) for one caller: evict expired timestamps from the front of
that caller's queue; reject (true) when the remaining count has reached
the limit, leaving the queue unchanged; otherwise record the current
timestamp and proceed (false). -/
def rateLimitedCheck (window : Int) (limit : Nat) (now : Int) (q : List Int) :
    Bool × List Int :=
  let q' := evictOld window now q
  if limit ≤ q'.length then (true, q')
  else (false, q' ++ [now])

/-- The rate-limit gate at the top of VideoGenerationCommand.execute
(src/core/video_command.py lines 74-79): a missing (falsy) user id or a
user listed in components.admin_users bypasses the check entirely;
everyone else goes through _rate_limited.  The Bool is true when the
request is rejected with "rate_limited". -/
def executeRateGate (admins : List String) (uid : Option String)
    (window : Int) (limit : Nat) (now : Int) (q : List Int) : Bool × List Int :=
  match uid with
  | none => (false, q)
  | some u => if u ∈ admins then (false, q) else rateLimitedCheck window limit now q

/-- A sequence of requests from one caller processed by _rate_limited
in order: returns the rejection flag of each request and the final
queue. -/
def runRequests (window : Int) (limit : Nat) : List Int → List Int → List Bool × List Int
  | [], q => ([], q)
  | t :: ts, q =>
    let step := rateLimitedCheck window limit t q
    let rest := runRequests window limit ts step.2
    (step.1 :: rest.1, rest.2)

/-- What the NapCat transport does on one POST of _send_private_video:
an HTTP response (status, text, decoded JSON or a decode error), an
asyncio timeout, or any other exception. -/
inductive NapOutcome where
  | httpResp (status : Nat) (text : String) (body : Except String JVal)
  | timeoutExc
  | otherExc (e : String)

/-- The msg computation of _analyze_napcat_response
(src/core/video_send_cilent.py line 58): (data.get("message") or
"").lower() — the empty string for a falsy message field, AttributeError
for a truthy non-string one. -/
def napMsg (data : JVal) : Except String String :=
  match jGetAttr data "message" with
  | .error e => Except.error e
  | .ok mRaw =>
    match (if jTruthy mRaw then mRaw else JVal.str "") with
    | .str s => Except.ok (lowerStr s)
    | _ => Except.error "AttributeError(lower)"

/-- The try-block of VideoSendCilent._analyze_napcat_response
(src/core/video_send_cilent.py lines 52-77): status "ok" is success;
otherwise lower-case the message (empty for a falsy message field) and
classify: a 风控/risk indicator in the message, or retcode in
(100, 120, 121), is risk_control; a file/video indicator is file_error;
an ENOSPC / no-space indicator is no_space (note the source tests the
upper-case literal "ENOSPC" against the lower-cased message, so that
disjunct can never fire); anything else is retryable. -/
def analyzeNapcatBody (data : JVal) : Except String (Bool × String) :=
  match jGetAttr data "status" with
  | .error e => Except.error e
  | .ok st =>
    if jIsStr st "ok" then Except.ok (true, "ok")
    else
      match jGetAttr data "retcode" with
      | .error e => Except.error e
      | .ok retcode =>
        match napMsg data with
        | .error e => Except.error e
        | .ok msg =>
          if strIn "风控" msg || strIn "risk" msg then Except.ok (false, "risk_control")
          else if jIsNum retcode 100 || jIsNum retcode 120 || jIsNum retcode 121 then
            Except.ok (false, "risk_control")
          else if strIn "file" msg || strIn "video" msg then Except.ok (false, "file_error")
          else if strIn "ENOSPC" msg || strIn "no space left on device" msg then
            Except.ok (false, "no_space")
          else Except.ok (false, "retryable")

/-- VideoSendCilent._analyze_napcat_response with its catch-all handler
(src/core/video_send_cilent.py lines 79-81), which turns any exception
into a retryable classification. -/
def analyzeNapcatResponse (data : JVal) : Bool × String :=
  match analyzeNapcatBody data with
  | .ok r => r
  | .error _ => (false, "retryable")

/-- The attempt loop of VideoSendCilent._send_private_video
(src/core/video_send_cilent.py lines 149-193), max_retry attempts: a
non-200 HTTP status returns immediately; a timeout, any exception, a
JSON decode failure, or a retryable classification moves to the next
attempt; success and the three fatal classifications return
immediately.  Returns the (success, result) pair and the number of
transport POSTs performed.  The oracle gives the transport's behaviour
on each attempt (attempts are numbered from 1, as in the source). -/
def sendPrivateVideoLoop (oracle : Nat → NapOutcome) (attempt : Nat) :
    Nat → (Bool × JVal) × Nat
  | 0 => ((false, JVal.str "NapCat 多次重试仍失败"), 0)
  | remaining + 1 =>
    let next :=
      let r := sendPrivateVideoLoop oracle (attempt + 1) remaining
      (r.1, r.2 + 1)
    match oracle attempt with
    | NapOutcome.timeoutExc => next
    | NapOutcome.otherExc _ => next
    | NapOutcome.httpResp status text body =>
      if status ≠ 200 then
        ((false, JVal.str ("本地网络异常HTTP " ++ toString status ++ ": " ++ text)), 1)
      else
        match body with
        | .error _ => next
        | .ok data =>
          match analyzeNapcatResponse data with
          | (true, _) => ((true, JVal.null), 1)
          | (false, reason) =>
            if reason = "risk_control" then ((false, JVal.str "⚠️ QQ 风控触发"), 1)
            else if reason = "file_error" then ((false, JVal.str "⚠️ 参数/文件错误"), 1)
            else if reason = "no_space" then ((false, JVal.str "⚠️ 磁盘空间不足"), 1)
            else next

/-- VideoSendCilent sends with self.max_retry = 2
(src/core/video_send_cilent.py line 16). -/
def sendPrivateVideoRun (oracle : Nat → NapOutcome) : (Bool × JVal) × Nat :=
  sendPrivateVideoLoop oracle 1 2

/-- The first three blocks of VideoGenerationCommand.get_video_size
(src/core/video_command.py lines 254-280): the openai block writes the
derived size, the siliconflow block writes the derived size, the doubao
block writes the derived ratio; each block is guarded by the format tag
read from the config. -/
def getVideoSizePre (command : String) (modelConfig : List (String × JVal)) :
    List (String × JVal) :=
  let apiFormat := (alook "format" modelConfig).getD (JVal.str "openai")
  let c1 :=
    if jIsStr apiFormat "openai" then
      let resolution := (alook "resolution" modelConfig).getD (JVal.str "720p")
      let size :=
        if command = "video" then JVal.null
        else if command = "video-l" then
          (if jIsStr resolution "1080p" then JVal.str "1792x1024" else JVal.str "1280x720")
        else
          (if jIsStr resolution "1080p" then JVal.str "1024x1792" else JVal.str "720x1280")
      aset "size" size modelConfig
    else modelConfig
  let c2 :=
    if jIsStr apiFormat "siliconflow" then
      let size :=
        if command = "video" then JVal.null
        else if command = "video-l" then JVal.str "1280x720"
        else JVal.str "720x1280"
      aset "size" size c1
    else c1
  if jIsStr apiFormat "doubao" then
    let r :=
      if command = "video" then JVal.str "adaptive"
      else if command = "video-l" then JVal.str "16:9"
      else JVal.str "9:16"
    aset "ratio" r c2
  else c2

/-- VideoGenerationCommand.get_video_size (src/core/video_command.py
lines 249-297): the three blocks of getVideoSizePre followed by the
vectorengine block, which writes the derived aspect_ratio and
orientation fields and clears resolution for veo models, then returns
the same (mutated) dict.  The Python substring tests on the model name
require a string; a non-string model in the vectorengine branch raises
TypeError. -/
def getVideoSize (command : String) (modelConfig : List (String × JVal)) :
    Except String (List (String × JVal)) :=
  let apiFormat := (alook "format" modelConfig).getD (JVal.str "openai")
  let model := (alook "model" modelConfig).getD (JVal.str "sora2")
  let c3 := getVideoSizePre command modelConfig
  if jIsStr apiFormat "vectorengine" then
    match model with
    | JVal.str m =>
      let ar :=
        if command = "video" then JVal.null
        else if command = "video-l" then
          (if strIn "veo3" m then JVal.str "16:9" else JVal.str "3:2")
        else
          (if strIn "veo3" m then JVal.str "9:16" else JVal.str "2:3")
      let orient :=
        if command = "video" then JVal.null
        else if command = "video-l" then
          (if strIn "sora-2" m then JVal.str "landscape" else JVal.null)
        else
          (if strIn "sora-2" m then JVal.str "portrait" else JVal.null)
      let c4 := if strIn "veo" m then aset "resolution" JVal.null c3 else c3
      let c5 := aset "aspect_ratio" (if strIn "veo2" m || strIn "sora" m then JVal.null else ar) c4
      Except.ok (aset "orientation" orient c5)
    | _ => Except.error "TypeError(argument of type is not iterable)"
  else Except.ok c3

/-- A concrete ProviderProfile as _get_model_config would return it:
an openai-format profile without a size field. -/
def sampleProfile : List (String × JVal) :=
  [("format", JVal.str "openai"), ("base_url", JVal.str "https://api.openai.com/v1"),
   ("api_key", JVal.str "k"), ("model", JVal.str "sora-2"),
   ("resolution", JVal.str "720p")]

/-- Poll response body used by the C5 theorems for the openai and
vectorengine formats: carries the status under test plus the fields the
terminal branches read, so the classification depends only on the
status. -/
def dOpenai (s : String) : JVal :=
  JVal.obj [("status", JVal.str s), ("video_url", JVal.str "u"), ("error", JVal.str "e")]

/-- Poll response body used by the C5 theorems for the doubao format. -/
def dDoubao (s : String) : JVal :=
  JVal.obj [("status", JVal.str s),
    ("content", JVal.obj [("video_url", JVal.str "u")]), ("error", JVal.str "e")]

/-- Poll response body used by the C5 theorems for the siliconflow
format. -/
def dSilicon (s : String) : JVal :=
  JVal.obj [("status", JVal.str s),
    ("results", JVal.obj [("videos", JVal.arr [JVal.obj [("url", JVal.str "u")]])])]

/-- C1: for every prompt, model configuration and optional input image
(abstracted by the would-be call body), the generate_video call made by
_execute_inner passes the keyword model_id, which generate_video's
signature does not declare, so the call raises TypeError before the
body runs; the handler at video_command.py line 227 catches it, sends
the generic error message, and the command returns
(False, "execute_error", True) — no video-generation command that
reaches the API call ever succeeds. -/
theorem c1_model_id_kwarg_raises_typeerror :
    ("model_id" ∈ executeInnerCallKwargNames ∧ "model_id" ∉ generateVideoParamNames)
    ∧ (∀ (body : Except String (Bool × JVal))
        (onResult : Bool × JVal → Except String (List String × (Bool × Option String × Bool))),
        executeInnerTrySection body onResult
          = (["发生异常，请稍后重试。"], (false, some "execute_error", true))) := by
  refine ⟨⟨by decide, by decide⟩, ?_⟩
  intro body onResult
  rfl

/-- C2: the while-True loop of _poll_openai_task never terminates when
the provider keeps answering with a non-terminal status: after any
number of iterations (hence after any amount of elapsed time and any
number of poll calls) the loop is still running.  The source reads
neither api.poll_timeout_seconds nor api.poll_max_attempts, so no
timeout failure is ever produced, contradicting the claimed bound. -/
theorem c2_poll_loop_never_terminates :
    ∀ (fuel i : Nat), pollOpenaiLoopFuel alwaysPendingOracle fuel i = none := by
  intro fuel
  induction fuel with
  | zero => intro i; rfl
  | succ n ih => intro i; exact ih (i + 1)

/-- C3: the submit section of _make_openai_request performs exactly one
POST and treats every non-200 status as an immediate failure: against a
provider that would answer 503, 503, then 200 with a task id, the run
returns the HTTP-failure message after a single POST — the two
remaining responses, including the successful one, are never requested
— and a connection error (requests.RequestException) likewise produces
an immediate failure with no retry. -/
theorem c3_submit_fails_immediately_no_retry :
    (∀ (poll : Nat → Except String JVal) (fuel : Nat),
        makeOpenaiRequestRun submits503twice poll fuel
          = (some (false, JVal.str "API请求失败: Service Unavailable"), 1))
    ∧ (∀ e : String, makeOpenaiSubmitStep (SubmitOutcome.reqExc e)
        = SubmitStep.finished (false, JVal.str ("网络请求失败: " ++ e))) := by
  refine ⟨?_, ?_⟩
  · intro poll fuel; rfl
  · intro e; rfl

/-- C4: generate_video contains no circuit breaker: for every provider
behaviour (submit transcript, poll behaviour) the openai path performs
exactly one submit POST — never zero, so there is no fast-fail before
the network call — and for every format-openai configuration the
outcome of generate_video is determined solely by the provider request
call, with no breaker gate consulted before it. -/
theorem c4_no_breaker_network_call_always_made :
    (∀ (submits : Nat → SubmitOutcome) (poll : Nat → Except String JVal) (fuel : Nat),
        (makeOpenaiRequestRun submits poll fuel).2 = 1)
    ∧ (∀ oracle : String → ReqOutcome,
        generateVideoTop (JVal.str "openai") oracle
          = (match oracle "openai" with
             | ReqOutcome.returns (s, r) => Except.ok (s, r)
             | ReqOutcome.raises e =>
               Except.ok (false, JVal.str ("API调用异常: " ++ strTake e 100)))) := by
  refine ⟨?_, ?_⟩
  · intro submits poll fuel
    cases h : makeOpenaiSubmitStep (submits 0) <;>
      simp [makeOpenaiRequestRun, h]
  · intro oracle
    cases h : oracle "openai" with
    | returns r =>
      obtain ⟨s, v⟩ := r
      cases s <;> simp [generateVideoTop, generateVideoBody, jIsStr, h]
    | raises e => simp [generateVideoTop, generateVideoBody, jIsStr, h]

/-- C9: generate_video never lets an exception escape to its caller:
for every format tag and every behaviour of the four request calls the
outer handler yields a plain (success, message) pair; when the provider
call raises, the pair is a failure whose message is the exception text
truncated to 100 characters; and a format tag outside the four known
ones triggers the unbound-local exception at "if success:", which the
same handler converts to a short failure message. -/
theorem c9_generate_video_never_raises :
    (∀ (fmt : JVal) (oracle : String → ReqOutcome),
        ∃ p, generateVideoTop fmt oracle = Except.ok p)
    ∧ (∀ e : String,
        generateVideoTop (JVal.str "openai") (fun _ => ReqOutcome.raises e)
          = Except.ok (false, JVal.str ("API调用异常: " ++ strTake e 100))
        ∧ (strTake e 100).data.length ≤ 100)
    ∧ (∀ oracle : String → ReqOutcome,
        generateVideoTop (JVal.str "bogus") oracle
          = Except.ok (false, JVal.str ("API调用异常: " ++ strTake unboundLocalMsg 100))) := by
  refine ⟨?_, ?_, ?_⟩
  · intro fmt oracle
    unfold generateVideoTop
    cases generateVideoBody fmt oracle with
    | ok r => exact ⟨r, rfl⟩
    | error e => exact ⟨_, rfl⟩
  · intro e
    exact ⟨rfl, by simp [strTake]⟩
  · intro oracle; rfl

/-- C5 counterexample: under the openai format a poll response whose
provider status is "succeeded" — one of the statuses the claim says
must normalize to succeeded — is classified as pending: the loop keeps
polling instead of returning the artifact. -/
theorem c5_counterexample_openai_succeeded_is_pending :
    pollOpenaiStep (dOpenai "succeeded") = none
    ∧ stepKind (pollOpenaiStep (dOpenai "succeeded")) ≠ NormStatus.succeeded := by
  exact ⟨rfl, by decide⟩

/-- C5 amended: the status vocabulary is per format, not shared.  The
openai and vectorengine polls recognize only "completed" as success and
only "failed" as failure; the doubao poll recognizes "succeeded" as
success and "failed" or "expired" as failure; the siliconflow poll
recognizes only "Succeed" as success and terminates as a failure on any
status that is a Python substring of the literal "Failed" (via the
AttributeError raised on its logging line); every other status keeps
the loop polling.  The spec's statuses "success", "succeed" and
"error" are terminal for no format. -/
theorem c5_amended_per_format_status_vocabulary :
    ∀ s : String,
      (stepKind (pollOpenaiStep (dOpenai s))
        = (if s = "completed" then NormStatus.succeeded
           else if s = "failed" then NormStatus.failed else NormStatus.pending))
      ∧ (stepKind (pollVectorengineStep (dOpenai s))
        = (if s = "completed" then NormStatus.succeeded
           else if s = "failed" then NormStatus.failed else NormStatus.pending))
      ∧ (stepKind (pollDoubaoStep (dDoubao s))
        = (if s = "succeeded" then NormStatus.succeeded
           else if s = "failed" then NormStatus.failed
           else if s = "expired" then NormStatus.failed else NormStatus.pending))
      ∧ (stepKind (pollSiliconflowStep (dSilicon s))
        = (if s = "Succeed" then NormStatus.succeeded
           else if strIn s "Failed" then NormStatus.failed else NormStatus.pending)) := by
  intro s
  refine ⟨?_, ?_, ?_, ?_⟩
  · by_cases h1 : s = "completed" <;> by_cases h2 : s = "failed" <;>
      simp_all [pollOpenaiStep, dOpenai, jItem, alook, jIsStr, stepKind]
  · by_cases h1 : s = "completed" <;> by_cases h2 : s = "failed" <;>
      simp_all [pollVectorengineStep, dOpenai, jItem, alook, jIsStr, stepKind]
  · by_cases h1 : s = "succeeded" <;> by_cases h2 : s = "failed" <;>
      by_cases h3 : s = "expired" <;>
      simp_all [pollDoubaoStep, dDoubao, jItem, alook, jIsStr, stepKind]
  · by_cases h1 : s = "Succeed" <;> by_cases h2 : strIn s "Failed" = true <;>
      simp_all [pollSiliconflowStep, dSilicon, jGetAttr, jItem, jIndex, alook,
        jIsStr, jTruthy, stepKind]

/-- Updating one key of a dict leaves the lookup of every other key
unchanged. -/
theorem alook_aset_ne (k k' : String) (v : JVal) (c : List (String × JVal))
    (h : k' ≠ k) : alook k (aset k' v c) = alook k c := by
  induction c with
  | nil => simp [aset, alook, h]
  | cons p rest ih =>
    obtain ⟨a, b⟩ := p
    by_cases ha : a = k'
    · subst ha; simp [aset, alook, h, Ne.symm h]
    · by_cases hak : a = k <;> simp [aset, alook, ha, hak, ih, Ne.symm h]

/-- The first three get_video_size blocks write only the size and ratio
fields: every other key's lookup is unchanged. -/
theorem getVideoSizePre_preserves (command : String) (cfg : List (String × JVal))
    (k : String) (hk1 : k ≠ "size") (hk2 : k ≠ "ratio") :
    alook k (getVideoSizePre command cfg) = alook k cfg := by
  have ne1 : "size" ≠ k := fun h => hk1 h.symm
  have ne2 : "ratio" ≠ k := fun h => hk2 h.symm
  unfold getVideoSizePre
  by_cases h1 : jIsStr ((alook "format" cfg).getD (JVal.str "openai")) "openai" = true <;>
  by_cases h2 : jIsStr ((alook "format" cfg).getD (JVal.str "openai")) "siliconflow" = true <;>
  by_cases h3 : jIsStr ((alook "format" cfg).getD (JVal.str "openai")) "doubao" = true <;>
  simp [h1, h2, h3, alook_aset_ne, ne1, ne2]

/-- C6 counterexample: under the openai format a poll response with
status "completed" but no video_url field in any shape makes
data["video_url"] raise KeyError, which the handler converts into a
failure return — the operation reports an error, not an empty artifact
reference treated as success. -/
theorem c6_counterexample_missing_url_is_failure :
    pollOpenaiStep (JVal.obj [("status", JVal.str "completed")])
      = some (false, JVal.str ("请求失败: " ++ keyErrorMsg "video_url"))
    ∧ stepKind (pollOpenaiStep (JVal.obj [("status", JVal.str "completed")]))
      = NormStatus.failed := ⟨rfl, rfl⟩

/-- C6 amended: for every openai poll response with succeeded status
whose artifact key is absent, and every siliconflow poll response with
succeeded status whose results object is absent, the poll returns a
caught-KeyError failure — a missing artifact URL is surfaced as an
error, never as an empty-artifact success. -/
theorem c6_amended_missing_url_raises_keyerror
    (fs gs : List (String × JVal))
    (h1 : alook "status" fs = some (JVal.str "completed"))
    (h2 : alook "video_url" fs = none)
    (h3 : alook "status" gs = some (JVal.str "Succeed"))
    (h4 : alook "results" gs = none) :
    pollOpenaiStep (JVal.obj fs)
      = some (false, JVal.str ("请求失败: " ++ keyErrorMsg "video_url"))
    ∧ pollSiliconflowStep (JVal.obj gs)
      = some (false, JVal.str ("请求失败: " ++ keyErrorMsg "results")) := by
  constructor
  · simp [pollOpenaiStep, jItem, jIsStr, h1, h2]
  · simp [pollSiliconflowStep, jGetAttr, jItem, jIsStr, h3, h4]

/-- Witness for the C6 amended theorem at concrete response bodies. -/
theorem c6_missing_url_witness :
    (alook "status" [("status", JVal.str "completed")] = some (JVal.str "completed"))
    ∧ (alook "video_url" [("status", JVal.str "completed")] = none)
    ∧ pollOpenaiStep (JVal.obj [("status", JVal.str "completed")])
        = some (false, JVal.str ("请求失败: " ++ keyErrorMsg "video_url"))
    ∧ pollSiliconflowStep (JVal.obj [("status", JVal.str "Succeed")])
        = some (false, JVal.str ("请求失败: " ++ keyErrorMsg "results")) :=
  ⟨rfl, rfl,
    (c6_amended_missing_url_raises_keyerror
      [("status", JVal.str "completed")] [("status", JVal.str "Succeed")]
      rfl rfl rfl rfl).1,
    (c6_amended_missing_url_raises_keyerror
      [("status", JVal.str "completed")] [("status", JVal.str "Succeed")]
      rfl rfl rfl rfl).2⟩

/-- C10 counterexample: get_video_size, called by _execute_inner
between the start of command execution and the submit call, writes the
derived size into the ProviderProfile dict: for the /video-l command on
an openai profile without a size field, the returned profile carries
size = "1280x720" while the input profile had no size binding — the
profile is not read-only to the orchestrator. -/
theorem c10_counterexample_profile_mutated :
    getVideoSize "video-l" sampleProfile
      = Except.ok (aset "size" (JVal.str "1280x720") sampleProfile)
    ∧ alook "size" (aset "size" (JVal.str "1280x720") sampleProfile)
      = some (JVal.str "1280x720")
    ∧ alook "size" sampleProfile = none := ⟨rfl, rfl, rfl⟩

/-- C10 amended: get_video_size does write into the profile, but only
the derived presentation fields size, ratio, aspect_ratio, orientation
and resolution; every other profile key (format, base_url, api_key,
model, ...) is left unchanged by the orchestration path up to the
submit call. -/
theorem c10_amended_only_derived_fields_written
    (command : String) (cfg out : List (String × JVal))
    (hok : getVideoSize command cfg = Except.ok out)
    (k : String)
    (hk1 : k ≠ "size") (hk2 : k ≠ "ratio") (hk3 : k ≠ "aspect_ratio")
    (hk4 : k ≠ "orientation") (hk5 : k ≠ "resolution") :
    alook k out = alook k cfg := by
  have ne1 : "size" ≠ k := fun h => hk1 h.symm
  have ne3 : "aspect_ratio" ≠ k := fun h => hk3 h.symm
  have ne4 : "orientation" ≠ k := fun h => hk4 h.symm
  have ne5 : "resolution" ≠ k := fun h => hk5 h.symm
  have hpre := getVideoSizePre_preserves command cfg k hk1 hk2
  unfold getVideoSize at hok
  by_cases h4 : jIsStr ((alook "format" cfg).getD (JVal.str "openai")) "vectorengine" = true
  · cases hm : (alook "model" cfg).getD (JVal.str "sora2") with
    | str m =>
      simp [h4, hm] at hok
      subst hok
      by_cases hveo : strIn "veo" m = true <;>
        simp [hveo, alook_aset_ne, ne1, ne3, ne4, ne5, hpre]
    | null => simp [h4, hm] at hok
    | bool b => simp [h4, hm] at hok
    | num n => simp [h4, hm] at hok
    | arr xs => simp [h4, hm] at hok
    | obj fs => simp [h4, hm] at hok
  · simp [h4] at hok
    subst hok
    exact hpre

/-- Witness for the C10 amended theorem: on the sample openai profile
the api_key binding survives the get_video_size call unchanged. -/
theorem c10_witness :
    getVideoSize "video-l" sampleProfile
      = Except.ok (aset "size" (JVal.str "1280x720") sampleProfile)
    ∧ alook "api_key" (aset "size" (JVal.str "1280x720") sampleProfile)
      = alook "api_key" sampleProfile :=
  ⟨rfl,
    c10_amended_only_derived_fields_written "video-l" sampleProfile
      (aset "size" (JVal.str "1280x720") sampleProfile) rfl "api_key"
      (by decide) (by decide) (by decide) (by decide) (by decide)⟩

/-- The predicate "timestamp t still lies inside the trailing window
seen from now", as tested by the eviction loop. -/
def withinWindow (window now t : Int) : Bool := decide (now - t ≤ window)

/-- When every queued timestamp is still inside the window the eviction
loop removes nothing. -/
theorem evictOld_noop (window now : Int) (q : List Int)
    (h : ∀ t ∈ q, now - t ≤ window) : evictOld window now q = q := by
  cases q with
  | nil => rfl
  | cons t ts =>
    have ht := h t (by simp)
    simp only [evictOld, if_neg (not_lt.mpr ht)]

/-- On a time-ordered queue the front-eviction loop removes exactly the
timestamps that fell out of the trailing window. -/
theorem evictOld_eq_filter (window now : Int) (q : List Int)
    (hs : List.Sorted (· ≤ ·) q) :
    evictOld window now q = q.filter (withinWindow window now) := by
  induction q with
  | nil => rfl
  | cons t ts ih =>
    rw [List.sorted_cons] at hs
    obtain ⟨hall, hts⟩ := hs
    by_cases h : window < now - t
    · have hf : withinWindow window now t = false := by
        simp only [withinWindow, decide_eq_false_iff_not]
        omega
      rw [show evictOld window now (t :: ts) = evictOld window now ts from by
            simp only [evictOld, if_pos h],
          ih hts, List.filter_cons, hf]
      simp
    · have hf : withinWindow window now t = true := by
        simp only [withinWindow, decide_eq_true_eq]
        omega
      have hfil : ts.filter (withinWindow window now) = ts := by
        rw [List.filter_eq_self]
        intro b hb
        have hb' := hall b hb
        simp only [withinWindow, decide_eq_true_eq]
        omega
      rw [show evictOld window now (t :: ts) = t :: ts from by
            simp only [evictOld, if_neg h],
          List.filter_cons, hf]
      simp [hfil]

/-- Processing requests that all lie within one window of each other
(and of the timestamps already queued): the i-th request is rejected
exactly when the running count has reached the limit. -/
theorem runRequests_within_window (window : Int) (limit : Nat) :
    ∀ (times q : List Int),
      (∀ a, (a ∈ q ∨ a ∈ times) → ∀ b, (b ∈ q ∨ b ∈ times) → b - a ≤ window) →
      (runRequests window limit times q).1
        = (List.range times.length).map (fun i => decide (limit ≤ q.length + i)) := by
  intro times
  induction times with
  | nil => intro q h; rfl
  | cons t ts ih =>
    intro q h
    have hnoev : evictOld window t q = q :=
      evictOld_noop _ _ _ (fun x hx => h x (Or.inl hx) t (Or.inr (by simp)))
    by_cases hlim : limit ≤ q.length
    · have hstep : rateLimitedCheck window limit t q = (true, q) := by
        simp [rateLimitedCheck, hnoev, hlim]
      have ihh := ih q (fun a ha b hb => by
        refine h a ?_ b ?_
        · rcases ha with ha | ha
          · exact Or.inl ha
          · exact Or.inr (by simp [ha])
        · rcases hb with hb | hb
          · exact Or.inl hb
          · exact Or.inr (by simp [hb]))
      have hrun : (runRequests window limit (t :: ts) q).1
          = true :: (runRequests window limit ts q).1 := by
        simp only [runRequests, hstep]
      rw [hrun, ihh, List.length_cons, List.range_succ_eq_map, List.map_cons,
        List.map_map]
      congr 1
      · rw [Nat.add_zero]
        exact (decide_eq_true hlim).symm
      · refine List.map_congr_left ?_
        intro a _
        simp only [Function.comp]
        refine decide_eq_decide.mpr ?_
        omega
    · have hstep : rateLimitedCheck window limit t q = (false, q ++ [t]) := by
        simp [rateLimitedCheck, hnoev, hlim]
      have ihh := ih (q ++ [t]) (fun a ha b hb => by
        refine h a ?_ b ?_
        · rcases ha with ha | ha
          · rcases List.mem_append.mp ha with ha' | ha'
            · exact Or.inl ha'
            · refine Or.inr ?_
              simp only [List.mem_singleton] at ha'
              simp [ha']
          · exact Or.inr (by simp [ha])
        · rcases hb with hb | hb
          · rcases List.mem_append.mp hb with hb' | hb'
            · exact Or.inl hb'
            · refine Or.inr ?_
              simp only [List.mem_singleton] at hb'
              simp [hb']
          · exact Or.inr (by simp [hb]))
      have hrun : (runRequests window limit (t :: ts) q).1
          = false :: (runRequests window limit ts (q ++ [t])).1 := by
        simp only [runRequests, hstep]
      rw [hrun, ihh, List.length_cons, List.length_append,
        List.range_succ_eq_map, List.map_cons, List.map_map]
      congr 1
      · rw [Nat.add_zero]
        exact (decide_eq_false hlim).symm
      · refine List.map_congr_left ?_
        intro a _
        simp only [Function.comp, List.length_cons, List.length_nil]
        refine decide_eq_decide.mpr ?_
        omega

/-- C7: on a time-ordered queue of a non-privileged caller, a request
is rejected exactly when the count of recorded timestamps inside the
trailing window has reached the limit, and otherwise the current
timestamp is recorded; a caller listed in admin_users bypasses the
check with the queue untouched; once every recorded timestamp has aged
out of the window a request (with a positive limit) succeeds; and
limit + 1 requests all inside one window, starting from an empty
queue, see exactly the first limit of them accepted and the last one
rejected. -/
theorem c7_sliding_window_rate_limiter
    (window : Int) (limit : Nat) (now : Int) (q : List Int)
    (hs : List.Sorted (· ≤ ·) q) :
    ((rateLimitedCheck window limit now q).1 = true
      ↔ limit ≤ (q.filter (withinWindow window now)).length)
    ∧ ((rateLimitedCheck window limit now q).1 = false →
        (rateLimitedCheck window limit now q).2
          = q.filter (withinWindow window now) ++ [now])
    ∧ (∀ (admins : List String) (uid : String), uid ∈ admins →
        executeRateGate admins (some uid) window limit now q = (false, q))
    ∧ ((∀ t ∈ q, window < now - t) → 1 ≤ limit →
        (rateLimitedCheck window limit now q).1 = false)
    ∧ (∀ times : List Int, times.length = limit + 1 →
        (∀ a ∈ times, ∀ b ∈ times, b - a ≤ window) →
        (runRequests window limit times []).1
          = (List.range (limit + 1)).map (fun i => decide (limit ≤ i))) := by
  have hevict := evictOld_eq_filter window now q hs
  refine ⟨?_, ?_, ?_, ?_, ?_⟩
  · simp only [rateLimitedCheck, hevict]
    by_cases hl : limit ≤ (q.filter (withinWindow window now)).length <;>
      simp [hl]
  · intro hfalse
    simp only [rateLimitedCheck, hevict] at hfalse ⊢
    by_cases hl : limit ≤ (q.filter (withinWindow window now)).length
    · simp [hl] at hfalse
    · simp [hl]
  · intro admins uid hmem
    simp [executeRateGate, hmem]
  · intro hold hpos
    have hfil : q.filter (withinWindow window now) = [] := by
      rw [List.filter_eq_nil_iff]
      intro a ha
      have := hold a ha
      simp only [withinWindow, decide_eq_true_eq]
      omega
    have h0 : ¬ limit ≤ (q.filter (withinWindow window now)).length := by
      rw [hfil]
      simp only [List.length_nil, Nat.le_zero]
      omega
    simp only [rateLimitedCheck, hevict]
    simp [h0]
  · intro times hlen hspan
    have hrun := runRequests_within_window window limit times []
      (fun a ha b hb => by
        rcases ha with ha | ha
        · simp at ha
        · rcases hb with hb | hb
          · simp at hb
          · exact hspan a ha b hb)
    rw [hrun, hlen]
    simp

/-- Witness for the C7 theorem at a concrete sorted queue, including
the reject-iff characterization, an admin bypass, and a full
limit-plus-one scenario whose last request is rejected. -/
theorem c7_witness :
    List.Sorted (· ≤ ·) ([95, 96] : List Int)
    ∧ (((rateLimitedCheck 10 2 100 [95, 96]).1 = true)
      ↔ 2 ≤ (([95, 96] : List Int).filter (withinWindow 10 100)).length)
    ∧ executeRateGate ["admin1"] (some "admin1") 10 2 100 [95, 96] = (false, [95, 96])
    ∧ (runRequests 10 2 [50, 51, 52] []).1
      = (List.range 3).map (fun i => decide (2 ≤ i)) := by
  have hs : List.Sorted (· ≤ ·) ([95, 96] : List Int) := by
    simp [List.sorted_cons]
  have hthm := c7_sliding_window_rate_limiter 10 2 100 [95, 96] hs
  exact ⟨hs, hthm.1, hthm.2.2.1 ["admin1"] "admin1" (by simp),
    hthm.2.2.2.2 [50, 51, 52] (by simp) (by decide)⟩

/-- C8: every transport response without the success marker whose
retcode is one of the known risk codes 100/120/121, or whose message
contains a risk indicator ("risk" or "风控" after lower-casing), is
classified risk_control, and the private-send loop then returns the
fatal risk failure after exactly one transport POST — no retry attempt
is made. -/
theorem c8_risk_control_is_fatal_no_retry
    (fs : List (String × JVal)) (text : String) (msg : String)
    (hst : jIsStr ((alook "status" fs).getD JVal.null) "ok" = false)
    (hmsg : napMsg (JVal.obj fs) = Except.ok msg)
    (hrisk : jIsNum ((alook "retcode" fs).getD JVal.null) 100 = true
      ∨ jIsNum ((alook "retcode" fs).getD JVal.null) 120 = true
      ∨ jIsNum ((alook "retcode" fs).getD JVal.null) 121 = true
      ∨ strIn "risk" msg = true ∨ strIn "风控" msg = true) :
    analyzeNapcatResponse (JVal.obj fs) = (false, "risk_control")
    ∧ sendPrivateVideoRun (fun _ => NapOutcome.httpResp 200 text (Except.ok (JVal.obj fs)))
        = ((false, JVal.str "⚠️ QQ 风控触发"), 1) := by
  have hbody : analyzeNapcatBody (JVal.obj fs) = Except.ok (false, "risk_control") := by
    unfold analyzeNapcatBody
    simp only [jGetAttr, hst, hmsg, Bool.false_eq_true, if_false]
    by_cases hm : (strIn "风控" msg || strIn "risk" msg) = true
    · simp [hm]
    · have hr : (jIsNum ((alook "retcode" fs).getD JVal.null) 100
          || jIsNum ((alook "retcode" fs).getD JVal.null) 120
          || jIsNum ((alook "retcode" fs).getD JVal.null) 121) = true := by
        simp only [Bool.or_eq_true] at hm ⊢
        rcases hrisk with h | h | h | h | h
        · exact Or.inl (Or.inl h)
        · exact Or.inl (Or.inr h)
        · exact Or.inr h
        · exact absurd (Or.inr h) hm
        · exact absurd (Or.inl h) hm
      simp [hm, hr]
  have hanalyze : analyzeNapcatResponse (JVal.obj fs) = (false, "risk_control") := by
    unfold analyzeNapcatResponse
    rw [hbody]
  refine ⟨hanalyze, ?_⟩
  simp [sendPrivateVideoRun, sendPrivateVideoLoop, hanalyze]

/-- Witness for the C8 theorem at the scenario response from the spec:
status "failed", retcode 120, message "risk control". -/
theorem c8_witness :
    (jIsStr ((alook "status"
        [("status", JVal.str "failed"), ("retcode", JVal.num 120),
         ("message", JVal.str "risk control")]).getD JVal.null) "ok" = false)
    ∧ (napMsg (JVal.obj
        [("status", JVal.str "failed"), ("retcode", JVal.num 120),
         ("message", JVal.str "risk control")]) = Except.ok "risk control")
    ∧ analyzeNapcatResponse (JVal.obj
        [("status", JVal.str "failed"), ("retcode", JVal.num 120),
         ("message", JVal.str "risk control")]) = (false, "risk_control")
    ∧ sendPrivateVideoRun (fun _ => NapOutcome.httpResp 200 ""
        (Except.ok (JVal.obj
          [("status", JVal.str "failed"), ("retcode", JVal.num 120),
           ("message", JVal.str "risk control")])))
        = ((false, JVal.str "⚠️ QQ 风控触发"), 1) := by
  have hthm := c8_risk_control_is_fatal_no_retry
    [("status", JVal.str "failed"), ("retcode", JVal.num 120),
     ("message", JVal.str "risk control")] "" "risk control"
    rfl rfl (Or.inr (Or.inl rfl))
  exact ⟨rfl, rfl, hthm.1, hthm.2⟩

end MaiVideo
